import Mathlib

/-!
Verification development for the breakout-app repository (Solana example
programs).  The repository contains:

* `src/src/state.rs`, `src/src/error.rs` — data model and error enum of the
  AI-sentiment-NFT oracle core (`ConfigAccount`, `OracleDataAccount`,
  `NftEvolutionAccount`, `AiNftError`);
* `src/src/processor.rs` — the stablecoin admin processor
  (`process_initialize`, `process_mint_to`, `process_set_admin`);
* `src/contracts/src/bin/loyalty/*` — the loyalty-points program;
* `src/contracts/src/bin/aiSentimentNft/main.rs` — a prose sketch of the
  oracle-verified update pipeline (decode → verify signature → freshness →
  transition → persist); the processor implementing it is absent from the
  repository, so that pipeline is modelled from the specification below,
  each such definition carrying a `Modelled from the spec:` doc comment.

Machine integers are modelled as `Nat` (u64, bytes) and `Int` (i64); byte
buffers are `List Nat`.  Public keys (32 bytes) and signatures (64 bytes)
are modelled as the natural number their little-endian bytes denote.
-/

/-! ## Little-endian byte encoding helpers -/

/-- Little-endian encoding of `v` on `w` bytes (least significant first),
as Borsh and the Rust `u64::to_le_bytes` family produce. -/
def leBytes : Nat → Nat → List Nat
  | 0, _ => []
  | w + 1, v => v % 256 :: leBytes w (v / 256)

/-- The 8-byte little-endian encoding of a u64 value. -/
def le8 (v : Nat) : List Nat := leBytes 8 v

/-- Two's-complement representative of an i64 in `[0, 2^64)`. -/
def i64ToNat (t : Int) : Nat := (t % (2 ^ 64 : Int)).toNat

/-- The 8-byte little-endian encoding of an i64 value (two's complement),
as `i64::to_le_bytes` produces. -/
def le8i (t : Int) : List Nat := le8 (i64ToNat t)

/-- Read a little-endian byte list back as a natural number. -/
def leNat (bs : List Nat) : Nat := bs.foldr (fun b acc => b + 256 * acc) 0

/-- Read a 64-bit two's-complement representative back as an `Int`,
as `i64::from_le_bytes` does. -/
def natToI64 (n : Nat) : Int := if n < 2 ^ 63 then (n : Int) else (n : Int) - 2 ^ 64

theorem leBytes_length (w v : Nat) : (leBytes w v).length = w := by
  induction w generalizing v with
  | zero => rfl
  | succ w ih => simp [leBytes, ih]

theorem leNat_leBytes (w v : Nat) : leNat (leBytes w v) = v % 256 ^ w := by
  induction w generalizing v with
  | zero => simp [leBytes, leNat, Nat.mod_one]
  | succ w ih =>
    simp only [leBytes, leNat, List.foldr] at *
    rw [ih (v / 256), pow_succ, mul_comm (256 ^ w) 256,
      ← Nat.mod_mul_right_div_self v 256 (256 ^ w),
      ← Nat.mod_mod_of_dvd v (⟨256 ^ w, rfl⟩ : (256 : Nat) ∣ 256 * 256 ^ w),
      Nat.mod_add_div]

/-! ## AI-sentiment-NFT core: data model (from `src/src/state.rs`)

`ConfigAccount` is the spec's TrustAnchor, `NftEvolutionAccount` the spec's
EntityState, `OracleDataAccount` the spec's AttestationRecord. -/

/-- The on-chain error values this development reaches: the
`solana_program::program_error::ProgramError` variants and the custom
`AiNftError` / `StablecoinError` / `LoyaltyError` discriminants used by
`src/src/error.rs` and the two processors. -/
inductive ProgErr where
  | InvalidAccountData
  | IncorrectProgramId
  | MissingRequiredSignature
  | NotRentExempt
  | AlreadyInitialized
  | NotInitialized
  | InvalidConfigAccountOwner
  deriving DecidableEq, Repr

namespace AiNft

/-- `ConfigAccount` of `src/src/state.rs`: `is_initialized: bool`,
`oracle_pubkey: Pubkey` (32 bytes, modelled as the Nat its LE bytes denote). -/
structure ConfigAccount where
  is_initialized : Bool
  oracle_pubkey : Nat
  deriving DecidableEq, Repr

/-- `ConfigAccount::LEN = 1 + 32` (`src/src/state.rs`). -/
def ConfigAccount.LEN : Nat := 1 + 32

/-- `OracleDataAccount` of `src/src/state.rs`: `sentiment_score: u64`,
`timestamp: i64`, `signature: [u8; 64]` (modelled as a Nat below `2^512`). -/
structure OracleDataAccount where
  sentiment_score : Nat
  timestamp : Int
  signature : Nat
  deriving DecidableEq, Repr

/-- `OracleDataAccount::LEN = 8 + 8 + 64` (`src/src/state.rs`). -/
def OracleDataAccount.LEN : Nat := 8 + 8 + 64

/-- `NftEvolutionAccount` of `src/src/state.rs`: `is_initialized: bool`,
`nft_mint: Pubkey`, `last_processed_sentiment: u64`,
`last_processed_timestamp: i64`, `evolution_points: u64`. -/
structure NftEvolutionAccount where
  is_initialized : Bool
  nft_mint : Nat
  last_processed_sentiment : Nat
  last_processed_timestamp : Int
  evolution_points : Nat
  deriving DecidableEq, Repr

/-- `NftEvolutionAccount::LEN = 1 + 32 + 8 + 8 + 8` (`src/src/state.rs`). -/
def NftEvolutionAccount.LEN : Nat := 1 + 32 + 8 + 8 + 8

/-- Borsh serialization of `ConfigAccount` (derive `BorshSerialize` in
`src/src/state.rs`): 1 flag byte then the 32 key bytes, little-endian,
no padding. -/
def configSerialize (a : ConfigAccount) : List Nat :=
  (if a.is_initialized then 1 else 0) :: leBytes 32 a.oracle_pubkey

/-- Borsh serialization of `NftEvolutionAccount` (derive `BorshSerialize`):
flag, 32 mint bytes, u64 LE, i64 LE, u64 LE, no padding. -/
def nftSerialize (a : NftEvolutionAccount) : List Nat :=
  (if a.is_initialized then 1 else 0) :: leBytes 32 a.nft_mint
    ++ le8 a.last_processed_sentiment
    ++ le8i a.last_processed_timestamp
    ++ le8 a.evolution_points

/-- Borsh serialization of `OracleDataAccount` (derive `BorshSerialize`):
u64 LE, i64 LE, 64 signature bytes, no padding. -/
def oracleSerialize (a : OracleDataAccount) : List Nat :=
  le8 a.sentiment_score ++ le8i a.timestamp ++ leBytes 64 a.signature

/-- Borsh deserialization of `ConfigAccount` from a byte stream: one bool
byte (Borsh requires exactly 0 or 1) then 32 key bytes; `none` models the
`Err` of `BorshDeserialize::deserialize`. -/
def configDeserialize (src : List Nat) : Option ConfigAccount :=
  match src with
  | b :: rest =>
    if 32 ≤ rest.length ∧ (b = 0 ∨ b = 1) then
      some { is_initialized := b = 1, oracle_pubkey := leNat (rest.take 32) }
    else none
  | [] => none

/-- Borsh deserialization of `NftEvolutionAccount` from a byte stream. -/
def nftDeserialize (src : List Nat) : Option NftEvolutionAccount :=
  match src with
  | b :: rest =>
    if 56 ≤ rest.length ∧ (b = 0 ∨ b = 1) then
      some { is_initialized := b = 1
           , nft_mint := leNat (rest.take 32)
           , last_processed_sentiment := leNat ((rest.drop 32).take 8)
           , last_processed_timestamp := natToI64 (leNat ((rest.drop 40).take 8))
           , evolution_points := leNat ((rest.drop 48).take 8) }
    else none
  | [] => none

/-- `ConfigAccount::pack_into_slice` (`src/src/state.rs`): serialize into a
`Cursor` over `dst` and `.unwrap()`.  Writing past the end of the slice
makes `serialize` fail, so the unwrap panics: `none` models the panic,
`some` the updated buffer (encoding written over the front of `dst`). -/
def ConfigAccount.pack_into_slice (a : ConfigAccount) (dst : List Nat) :
    Option (List Nat) :=
  let bytes := configSerialize a
  if bytes.length ≤ dst.length then some (bytes ++ dst.drop bytes.length) else none

/-- `NftEvolutionAccount::pack_into_slice` (`src/src/state.rs`), same shape. -/
def NftEvolutionAccount.pack_into_slice (a : NftEvolutionAccount)
    (dst : List Nat) : Option (List Nat) :=
  let bytes := nftSerialize a
  if bytes.length ≤ dst.length then some (bytes ++ dst.drop bytes.length) else none

/-- `ConfigAccount::unpack_from_slice` (`src/src/state.rs`): Borsh
deserialize, mapping every failure to `ProgramError::InvalidAccountData`. -/
def ConfigAccount.unpack_from_slice (src : List Nat) :
    Except ProgErr ConfigAccount :=
  match configDeserialize src with
  | some a => .ok a
  | none => .error .InvalidAccountData

/-- `NftEvolutionAccount::unpack_from_slice` (`src/src/state.rs`), same shape. -/
def NftEvolutionAccount.unpack_from_slice (src : List Nat) :
    Except ProgErr NftEvolutionAccount :=
  match nftDeserialize src with
  | some a => .ok a
  | none => .error .InvalidAccountData

end AiNft

/-! ## The spec's UpdateEntity core

The processor implementing the oracle-verified update pipeline is absent
from the repository (`src/contracts/src/bin/aiSentimentNft/main.rs` is a
prose sketch only), so this section is modelled from the spec (spec.md
sections 3, 4, 6, 7). -/

namespace Core

/-- Modelled from the spec: the error taxonomy of spec.md section 7 for the
missing UpdateEntity processor; `SignatureInvalid` corresponds to
`AiNftError::OracleSignatureVerificationFailed` and `Stale` to
`AiNftError::StaleOracleData` in `src/src/error.rs`. -/
inductive CoreError where
  | AlreadyInitialized
  | NotInitialized
  | MalformedRecord
  | SignatureInvalid
  | Stale
  deriving DecidableEq, Repr

/-- Modelled from the spec: TrustAnchor (spec.md section 3) — the missing
processor's view of `ConfigAccount`. -/
structure TrustAnchor where
  initialized : Bool
  authority_key : Nat
  deriving DecidableEq, Repr

/-- Modelled from the spec: EntityState (spec.md section 3) — the missing
processor's view of `NftEvolutionAccount`. -/
structure EntityState where
  initialized : Bool
  entity_ref : Nat
  last_value : Nat
  last_timestamp : Int
  accumulated_score : Nat
  deriving DecidableEq, Repr

/-- Modelled from the spec: AttestationRecord (spec.md section 3) — the
missing processor's view of `OracleDataAccount`. -/
structure AttestationRecord where
  value : Nat
  timestamp : Int
  signature : Nat
  deriving DecidableEq, Repr

/-- Modelled from the spec: decoding the 80-byte fixed-width attestation
blob (spec.md section 6) — value u64 LE, timestamp i64 LE, 64 signature
bytes; any other width is a `MalformedRecord`. -/
def decodeAttestation (bs : List Nat) : Option AttestationRecord :=
  if bs.length = 80 then
    some { value := leNat (bs.take 8)
         , timestamp := natToI64 (leNat ((bs.drop 8).take 8))
         , signature := leNat (bs.drop 16) }
  else none

/-- Modelled from the spec: the exact signed message (spec.md sections 4.3
and 6): 16 bytes, `value` (8 LE) then `timestamp` (8 LE). -/
def signedMessage (r : AttestationRecord) : List Nat :=
  le8 r.value ++ le8i r.timestamp

/-- The abstract Ed25519 primitive the missing processor would call
(message, signature, public key): the model is parametric in it. -/
def SigCheck : Type := List Nat → Nat → Nat → Bool

/-- Modelled from the spec: `Verify(record, trusted_key)` of spec.md
section 4.3 — every failure surfaces as the single kind
`SignatureInvalid`. -/
def verifyRecord (sv : SigCheck) (r : AttestationRecord) (trusted_key : Nat) :
    Except CoreError Unit :=
  if sv (signedMessage r) r.signature trusted_key then .ok () else .error .SignatureInvalid

/-- Modelled from the spec: `CheckFreshness` of spec.md section 4.4 —
reject with `Stale` iff `record.timestamp <= entity.last_timestamp`. -/
def checkFreshness (ts last : Int) : Except CoreError Unit :=
  if ts ≤ last then .error .Stale else .ok ()

/-- u64::MAX. -/
def u64Max : Nat := 2 ^ 64 - 1

/-- `u64::saturating_add` on the Nat model of u64 values. -/
def saturatingAdd (a b : Nat) : Nat := min (a + b) u64Max

/-- Modelled from the spec: the TransitionFunction `f` of spec.md section
4.5 (the missing processor's scoring policy).  Nat subtraction is already
`saturating_sub` (clamped at zero). -/
def transitionF (value current_score : Nat) : Nat :=
  if value > 75 then saturatingAdd current_score 10
  else if value > 50 then saturatingAdd current_score 5
  else if value < 25 then current_score - 2
  else current_score

/-- Modelled from the spec: `InitializeTrustAnchor(authority_key)` of
spec.md sections 4.1 and 6. -/
def initTrustAnchor (anchor : TrustAnchor) (authority_key : Nat) :
    Except CoreError TrustAnchor :=
  if anchor.initialized then .error .AlreadyInitialized
  else .ok { initialized := true, authority_key := authority_key }

/-- Modelled from the spec: `InitializeEntity(entity_ref)` of spec.md
sections 4.2 and 6 — zeroes all attested fields and binds `entity_ref`. -/
def initEntity (entity : EntityState) (entity_ref : Nat) :
    Except CoreError EntityState :=
  if entity.initialized then .error .AlreadyInitialized
  else .ok { initialized := true, entity_ref := entity_ref
           , last_value := 0, last_timestamp := 0, accumulated_score := 0 }

/-- Modelled from the spec: the missing `UpdateEntity()` orchestration of
spec.md section 4.6 — the five preconditions in order, first failure wins,
then transition and persist. -/
def updateEntity (sv : SigCheck) (anchor : TrustAnchor) (entity : EntityState)
    (bs : List Nat) : Except CoreError EntityState :=
  if anchor.initialized = false then .error .NotInitialized
  else if entity.initialized = false then .error .NotInitialized
  else
    match decodeAttestation bs with
    | none => .error .MalformedRecord
    | some r =>
      match verifyRecord sv r anchor.authority_key with
      | .error e => .error e
      | .ok _ =>
        match checkFreshness r.timestamp entity.last_timestamp with
        | .error e => .error e
        | .ok _ =>
          .ok { entity with
                last_value := r.value
              , last_timestamp := r.timestamp
              , accumulated_score := transitionF r.value entity.accumulated_score }

/-- The full state an UpdateEntity call can see: the trust anchor and the
targeted entity (the attestation blob is a read-only input). -/
structure World where
  anchor : TrustAnchor
  entity : EntityState
  deriving DecidableEq, Repr

/-- Modelled from the spec: one UpdateEntity call at the state level — the
environment keeps the old state whenever the call fails (spec.md section 5,
failure atomicity), and only the targeted EntityState is written. -/
def runUpdate (sv : SigCheck) (w : World) (bs : List Nat) :
    World × Option CoreError :=
  match updateEntity sv w.anchor w.entity bs with
  | .ok e' => ({ w with entity := e' }, none)
  | .error e => (w, some e)

end Core

/-! ## Loyalty program (`src/contracts/src/bin/loyalty/state.rs`,
`processor.rs`) -/

namespace Loyalty

/-- `ConfigAccount` of `src/contracts/src/bin/loyalty/state.rs`:
`is_initialized: bool`, `admin: Pubkey`, `loyalty_mint: Pubkey`. -/
structure ConfigAccount where
  is_initialized : Bool
  admin : Nat
  loyalty_mint : Nat
  deriving DecidableEq, Repr

/-- `ConfigAccount::LEN = 1 + 32 + 32` (loyalty `state.rs`). -/
def ConfigAccount.LEN : Nat := 1 + 32 + 32

/-- Borsh serialization of the loyalty `ConfigAccount`. -/
def configSerialize (a : ConfigAccount) : List Nat :=
  (if a.is_initialized then 1 else 0)
    :: (leBytes 32 a.admin ++ leBytes 32 a.loyalty_mint)

/-- Borsh deserialization of the loyalty `ConfigAccount`. -/
def configDeserialize (src : List Nat) : Option ConfigAccount :=
  match src with
  | b :: rest =>
    if 64 ≤ rest.length ∧ (b = 0 ∨ b = 1) then
      some { is_initialized := b = 1
           , admin := leNat (rest.take 32)
           , loyalty_mint := leNat ((rest.drop 32).take 32) }
    else none
  | [] => none

/-- Loyalty `ConfigAccount::unpack_from_slice`: Borsh deserialize, every
failure mapped to `InvalidAccountData`. -/
def ConfigAccount.unpack_from_slice (src : List Nat) :
    Except ProgErr ConfigAccount :=
  match configDeserialize src with
  | some a => .ok a
  | none => .error .InvalidAccountData

/-- `solana_program::program_pack::Pack::unpack_unchecked` for the loyalty
config: the input must be exactly `LEN` bytes, then `unpack_from_slice`. -/
def ConfigAccount.unpack_unchecked (src : List Nat) :
    Except ProgErr ConfigAccount :=
  if src.length = ConfigAccount.LEN then ConfigAccount.unpack_from_slice src
  else .error .InvalidAccountData

/-- `Pack::pack` for the loyalty config: the destination must be exactly
`LEN` bytes, then `pack_into_slice` overwrites it with the encoding. -/
def ConfigAccount.pack (a : ConfigAccount) (dst : List Nat) :
    Except ProgErr (List Nat) :=
  if dst.length = ConfigAccount.LEN then
    .ok (configSerialize a ++ dst.drop (configSerialize a).length)
  else .error .InvalidAccountData

/-- Loyalty `Processor::process_initialize`
(`src/contracts/src/bin/loyalty/processor.rs`, lines 52–93): initializer
signature, config ownership, rent exemption, `unpack_unchecked`, the
already-initialized check, then write `{true, admin, loyalty_mint}`.
The initializer's key is taken but never compared with anything. -/
def processInit (initializer_is_signer : Bool) (initializer_key : Nat)
    (config_owner program_id : Nat) (rent_exempt : Bool)
    (config_data : List Nat) (admin : Nat) (loyalty_mint_key : Nat) :
    Except ProgErr (List Nat) :=
  if initializer_is_signer = false then .error .MissingRequiredSignature
  else if config_owner ≠ program_id then .error .InvalidConfigAccountOwner
  else if rent_exempt = false then .error .NotRentExempt
  else
    match ConfigAccount.unpack_unchecked config_data with
    | .error e => .error e
    | .ok cfg =>
      if cfg.is_initialized then .error .AlreadyInitialized
      else
        ConfigAccount.pack
          { is_initialized := true, admin := admin
          , loyalty_mint := loyalty_mint_key } config_data

/-- One `process_initialize` call at the state level: the runtime discards
the write when the call fails, so the account keeps its old bytes. -/
def runInit (initializer_is_signer : Bool) (initializer_key : Nat)
    (config_owner program_id : Nat) (rent_exempt : Bool)
    (config_data : List Nat) (admin : Nat) (loyalty_mint_key : Nat) :
    List Nat × Option ProgErr :=
  match processInit initializer_is_signer initializer_key config_owner
      program_id rent_exempt config_data admin loyalty_mint_key with
  | .ok d => (d, none)
  | .error e => (config_data, some e)

end Loyalty

/-! ## Stablecoin admin program (`src/src/processor.rs`)

`src/src/processor.rs` imports `crate::state::ConfigAccount` with fields
`is_initialized`, `admin`, `mint_account`, but `src/src/state.rs` holds the
AI-NFT `ConfigAccount` instead (the repository mixes the two programs in
one crate).  The struct below follows the processor's field usage and the
account documentation in `src/src/instruction.rs`. -/

namespace Stable

/-- The stablecoin `ConfigAccount` as `src/src/processor.rs` uses it:
`is_initialized: bool`, `admin: Pubkey`, `mint_account: Pubkey`. -/
structure ConfigAccount where
  is_initialized : Bool
  admin : Nat
  mint_account : Nat
  deriving DecidableEq, Repr

/-- Borsh width of the stablecoin config: 1 + 32 + 32. -/
def ConfigAccount.LEN : Nat := 1 + 32 + 32

/-- Borsh serialization of the stablecoin `ConfigAccount`. -/
def configSerialize (a : ConfigAccount) : List Nat :=
  (if a.is_initialized then 1 else 0)
    :: (leBytes 32 a.admin ++ leBytes 32 a.mint_account)

/-- Borsh deserialization of the stablecoin `ConfigAccount`. -/
def configDeserialize (src : List Nat) : Option ConfigAccount :=
  match src with
  | b :: rest =>
    if 64 ≤ rest.length ∧ (b = 0 ∨ b = 1) then
      some { is_initialized := b = 1
           , admin := leNat (rest.take 32)
           , mint_account := leNat ((rest.drop 32).take 32) }
    else none
  | [] => none

/-- Stablecoin `ConfigAccount::unpack_from_slice`. -/
def ConfigAccount.unpack_from_slice (src : List Nat) :
    Except ProgErr ConfigAccount :=
  match configDeserialize src with
  | some a => .ok a
  | none => .error .InvalidAccountData

/-- `Pack::unpack_unchecked` for the stablecoin config. -/
def ConfigAccount.unpack_unchecked (src : List Nat) :
    Except ProgErr ConfigAccount :=
  if src.length = ConfigAccount.LEN then ConfigAccount.unpack_from_slice src
  else .error .InvalidAccountData

/-- `Pack::pack` for the stablecoin config. -/
def ConfigAccount.pack (a : ConfigAccount) (dst : List Nat) :
    Except ProgErr (List Nat) :=
  if dst.length = ConfigAccount.LEN then
    .ok (configSerialize a ++ dst.drop (configSerialize a).length)
  else .error .InvalidAccountData

/-- Stablecoin `Processor::process_initialize` (`src/src/processor.rs`,
lines 47–96): config ownership, rent exemption, `unpack_unchecked`, the
already-initialized check, then write `{true, admin, mint}`.  The payer
account is consumed but its `is_signer` flag is never read, so the model
carries it as an unused argument. -/
def processInit (payer_is_signer : Bool) (config_owner program_id : Nat)
    (rent_exempt : Bool) (config_data : List Nat) (admin : Nat)
    (mint_key : Nat) : Except ProgErr (List Nat) :=
  if config_owner ≠ program_id then .error .IncorrectProgramId
  else if rent_exempt = false then .error .NotRentExempt
  else
    match ConfigAccount.unpack_unchecked config_data with
    | .error e => .error e
    | .ok cfg =>
      if cfg.is_initialized then .error .AlreadyInitialized
      else
        ConfigAccount.pack
          { is_initialized := true, admin := admin
          , mint_account := mint_key } config_data

end Stable

/-! ## Shared lemmas -/

theorem leNat_leBytes_of_lt {w v : Nat} (h : v < 256 ^ w) :
    leNat (leBytes w v) = v := by
  rw [leNat_leBytes]; exact Nat.mod_eq_of_lt h

/-- Full characterization of a successful `updateEntity` call. -/
theorem updateEntity_ok_iff (sv : Core.SigCheck) (anchor : Core.TrustAnchor)
    (entity e' : Core.EntityState) (bs : List Nat) :
    Core.updateEntity sv anchor entity bs = .ok e' ↔
      ∃ r, anchor.initialized = true ∧ entity.initialized = true ∧
        Core.decodeAttestation bs = some r ∧
        sv (Core.signedMessage r) r.signature anchor.authority_key = true ∧
        entity.last_timestamp < r.timestamp ∧
        e' = { entity with
               last_value := r.value
             , last_timestamp := r.timestamp
             , accumulated_score :=
                 Core.transitionF r.value entity.accumulated_score } := by
  unfold Core.updateEntity Core.verifyRecord Core.checkFreshness
  cases ha : anchor.initialized <;> simp [ha]
  cases he : entity.initialized <;> simp [he]
  cases hd : Core.decodeAttestation bs with
  | none => simp
  | some r =>
    simp only [Option.some.injEq]
    cases hs : sv (Core.signedMessage r) r.signature anchor.authority_key <;>
      simp [hs]
    by_cases hts : r.timestamp ≤ entity.last_timestamp <;> simp [hts]
    constructor
    · intro hsome; exact ⟨not_le.mp hts, hsome.symm⟩
    · rintro ⟨-, rfl⟩; rfl

/-! ## Claim theorems -/

/-- C1: the transition function `f(value, current_score)` is a pure total
function; it adds 10 (saturating) when `value > 75`, adds 5 (saturating)
when `50 < value <= 75`, saturating-subtracts 2 when `value < 25`, and
leaves the score unchanged when `25 <= value <= 50`; it never exceeds
`u64::MAX`. -/
theorem C1_transition (value current_score : Nat) :
    (value > 75 →
      Core.transitionF value current_score =
        min (current_score + 10) Core.u64Max) ∧
    (50 < value → value ≤ 75 →
      Core.transitionF value current_score =
        min (current_score + 5) Core.u64Max) ∧
    (value < 25 →
      Core.transitionF value current_score = current_score - 2) ∧
    (25 ≤ value → value ≤ 50 →
      Core.transitionF value current_score = current_score) ∧
    (current_score ≤ Core.u64Max →
      Core.transitionF value current_score ≤ Core.u64Max) ∧
    (value > 75 → current_score + 10 ≤ Core.u64Max →
      Core.transitionF value current_score = current_score + 10) ∧
    (50 < value → value ≤ 75 → current_score + 5 ≤ Core.u64Max →
      Core.transitionF value current_score = current_score + 5) := by
  unfold Core.transitionF Core.saturatingAdd Core.u64Max
  refine ⟨?_, ?_, ?_, ?_, ?_, ?_, ?_⟩ <;> intros <;> split_ifs <;> omega

/-- C1 witness: the spec's test table row `value = 90`,
`accumulated_score = 0` gives `10`. -/
theorem C1_transition_witness :
    90 > 75 ∧ Core.transitionF 90 0 = min (0 + 10) Core.u64Max :=
  ⟨by decide, (C1_transition 90 0).1 (by decide)⟩

/-- C2: the freshness guard rejects with `Stale` exactly when
`record.timestamp <= entity.last_timestamp` (and `UpdateEntity` does so
whenever the earlier preconditions pass); an accepted update strictly
increases `last_timestamp`, and resubmitting the byte-identical record
after an accepted update fails with `Stale`. -/
theorem C2_stale (sv : Core.SigCheck) (anchor : Core.TrustAnchor)
    (entity entity' : Core.EntityState) (bs : List Nat)
    (r : Core.AttestationRecord) (ts last : Int) :
    (Core.checkFreshness ts last = .error .Stale ↔ ts ≤ last) ∧
    (anchor.initialized = true → entity.initialized = true →
      Core.decodeAttestation bs = some r →
      sv (Core.signedMessage r) r.signature anchor.authority_key = true →
      (Core.updateEntity sv anchor entity bs = .error .Stale ↔
        r.timestamp ≤ entity.last_timestamp)) ∧
    (Core.updateEntity sv anchor entity bs = .ok entity' →
      entity.last_timestamp < entity'.last_timestamp) ∧
    (Core.updateEntity sv anchor entity bs = .ok entity' →
      Core.updateEntity sv anchor entity' bs = .error .Stale) := by
  refine ⟨?_, ?_, ?_, ?_⟩
  · unfold Core.checkFreshness
    by_cases h : ts ≤ last <;> simp [h]
  · intro ha he hd hs
    simp only [Core.updateEntity, Core.verifyRecord, Core.checkFreshness,
      ha, he, hd, hs]
    by_cases hts : r.timestamp ≤ entity.last_timestamp <;> simp [hts]
  · intro hok
    rw [updateEntity_ok_iff] at hok
    obtain ⟨r, ha, he, hd, hs, hts, rfl⟩ := hok
    simpa using hts
  · intro hok
    rw [updateEntity_ok_iff] at hok
    obtain ⟨r, ha, he, hd, hs, hts, rfl⟩ := hok
    simp [Core.updateEntity, Core.verifyRecord, Core.checkFreshness,
      ha, he, hd, hs]

/-- C2 witness: the spec's section-8 scenario — a valid record with
`value=80`, `timestamp=100` on a fresh entity is accepted (score 10,
`last_timestamp` 100); the byte-identical resubmission fails `Stale`. -/
theorem C2_stale_witness :
    Core.updateEntity (fun _ _ _ => true)
        { initialized := true, authority_key := 7 }
        { initialized := true, entity_ref := 1, last_value := 0
        , last_timestamp := 0, accumulated_score := 0 }
        (le8 80 ++ le8i 100 ++ leBytes 64 0) =
      .ok { initialized := true, entity_ref := 1, last_value := 80
          , last_timestamp := 100, accumulated_score := 10 } ∧
    Core.updateEntity (fun _ _ _ => true)
        { initialized := true, authority_key := 7 }
        { initialized := true, entity_ref := 1, last_value := 80
        , last_timestamp := 100, accumulated_score := 10 }
        (le8 80 ++ le8i 100 ++ leBytes 64 0) = .error .Stale := by
  have h1 : Core.updateEntity (fun _ _ _ => true)
      { initialized := true, authority_key := 7 }
      { initialized := true, entity_ref := 1, last_value := 0
      , last_timestamp := 0, accumulated_score := 0 }
      (le8 80 ++ le8i 100 ++ leBytes 64 0) =
      .ok { initialized := true, entity_ref := 1, last_value := 80
          , last_timestamp := 100, accumulated_score := 10 } := by rfl
  exact ⟨h1,
    (C2_stale (fun _ _ _ => true)
      { initialized := true, authority_key := 7 }
      { initialized := true, entity_ref := 1, last_value := 0
      , last_timestamp := 0, accumulated_score := 0 }
      { initialized := true, entity_ref := 1, last_value := 80
      , last_timestamp := 100, accumulated_score := 10 }
      (le8 80 ++ le8i 100 ++ leBytes 64 0)
      { value := 0, timestamp := 0, signature := 0 } 0 0).2.2.2 h1⟩

/-- C3: `UpdateEntity` checks its preconditions in the fixed order
TrustAnchor initialized → EntityState initialized → decode → signature →
freshness, returning the first failure; a record both stale and forged
reports `SignatureInvalid`, not `Stale`. -/
theorem C3_order (sv : Core.SigCheck) (anchor : Core.TrustAnchor)
    (entity : Core.EntityState) (bs : List Nat)
    (r : Core.AttestationRecord) :
    (anchor.initialized = false →
      Core.updateEntity sv anchor entity bs = .error .NotInitialized) ∧
    (anchor.initialized = true → entity.initialized = false →
      Core.updateEntity sv anchor entity bs = .error .NotInitialized) ∧
    (anchor.initialized = true → entity.initialized = true →
      Core.decodeAttestation bs = none →
      Core.updateEntity sv anchor entity bs = .error .MalformedRecord) ∧
    (anchor.initialized = true → entity.initialized = true →
      Core.decodeAttestation bs = some r →
      sv (Core.signedMessage r) r.signature anchor.authority_key = false →
      Core.updateEntity sv anchor entity bs = .error .SignatureInvalid) ∧
    (anchor.initialized = true → entity.initialized = true →
      Core.decodeAttestation bs = some r →
      sv (Core.signedMessage r) r.signature anchor.authority_key = false →
      r.timestamp ≤ entity.last_timestamp →
      Core.updateEntity sv anchor entity bs = .error .SignatureInvalid) ∧
    (anchor.initialized = true → entity.initialized = true →
      Core.decodeAttestation bs = some r →
      sv (Core.signedMessage r) r.signature anchor.authority_key = true →
      r.timestamp ≤ entity.last_timestamp →
      Core.updateEntity sv anchor entity bs = .error .Stale) := by
  refine ⟨?_, ?_, ?_, ?_, ?_, ?_⟩ <;> intros <;>
    simp_all [Core.updateEntity, Core.verifyRecord, Core.checkFreshness]

/-- C3 witness: a record that is both stale (`timestamp 0` against a last
timestamp of `5`) and forged (the verifier refuses it) reports
`SignatureInvalid`. -/
theorem C3_order_witness :
    Core.updateEntity (fun _ _ _ => false)
        { initialized := true, authority_key := 7 }
        { initialized := true, entity_ref := 1, last_value := 3
        , last_timestamp := 5, accumulated_score := 2 }
        (le8 60 ++ le8i 0 ++ leBytes 64 9) = .error .SignatureInvalid := by
  exact (C3_order (fun _ _ _ => false)
    { initialized := true, authority_key := 7 }
    { initialized := true, entity_ref := 1, last_value := 3
    , last_timestamp := 5, accumulated_score := 2 }
    (le8 60 ++ le8i 0 ++ leBytes 64 9)
    { value := 60, timestamp := 0, signature := leNat (leBytes 64 9) }
    ).2.2.2.2.1 rfl rfl (by decide) rfl (by decide)

/-- C4: `Verify` checks the signature over exactly the 16-byte message
`value (8 LE) ‖ timestamp (8 LE)` with the trusted key; it succeeds iff
the primitive accepts, and every failure surfaces as the single kind
`SignatureInvalid`. -/
theorem C4_verify (sv : Core.SigCheck) (r : Core.AttestationRecord)
    (key : Nat) :
    (Core.signedMessage r).length = 16 ∧
    Core.signedMessage r = le8 r.value ++ le8i r.timestamp ∧
    (Core.verifyRecord sv r key = .ok () ↔
      sv (Core.signedMessage r) r.signature key = true) ∧
    (∀ e, Core.verifyRecord sv r key = .error e →
      e = Core.CoreError.SignatureInvalid) := by
  refine ⟨?_, rfl, ?_, ?_⟩
  · simp [Core.signedMessage, le8, le8i, leBytes_length]
  · unfold Core.verifyRecord
    cases h : sv (Core.signedMessage r) r.signature key <;> simp [h]
  · intro e
    unfold Core.verifyRecord
    cases h : sv (Core.signedMessage r) r.signature key <;> simp [h]
    intro he; exact he.symm

/-- C4 witness: a refusing primitive makes `Verify` fail with
`SignatureInvalid`, and the theorem pins that error kind. -/
theorem C4_verify_witness :
    Core.verifyRecord (fun _ _ _ => false)
        { value := 1, timestamp := 2, signature := 3 } 4 =
      .error Core.CoreError.SignatureInvalid ∧
    Core.CoreError.SignatureInvalid = Core.CoreError.SignatureInvalid := by
  refine ⟨by rfl, ?_⟩
  exact (C4_verify (fun _ _ _ => false)
    { value := 1, timestamp := 2, signature := 3 } 4).2.2.2
    Core.CoreError.SignatureInvalid (by rfl)

/-- C5: an `UpdateEntity` call never writes the TrustAnchor, and whenever
it fails the whole state — the targeted EntityState included — is exactly
what it was before the call. -/
theorem C5_frame (sv : Core.SigCheck) (w : Core.World) (bs : List Nat)
    (e : Core.CoreError) :
    (Core.runUpdate sv w bs).1.anchor = w.anchor ∧
    ((Core.runUpdate sv w bs).2 = some e → (Core.runUpdate sv w bs).1 = w) := by
  unfold Core.runUpdate
  cases h : Core.updateEntity sv w.anchor w.entity bs <;> simp

/-- C5 witness: a call that fails (uninitialized trust anchor, empty
record) leaves the world exactly unchanged. -/
theorem C5_frame_witness :
    (Core.runUpdate (fun _ _ _ => true)
        { anchor := { initialized := false, authority_key := 0 }
        , entity := { initialized := false, entity_ref := 0, last_value := 0
                    , last_timestamp := 0, accumulated_score := 0 } } []).2 =
      some Core.CoreError.NotInitialized ∧
    (Core.runUpdate (fun _ _ _ => true)
        { anchor := { initialized := false, authority_key := 0 }
        , entity := { initialized := false, entity_ref := 0, last_value := 0
                    , last_timestamp := 0, accumulated_score := 0 } } []).1 =
      { anchor := { initialized := false, authority_key := 0 }
      , entity := { initialized := false, entity_ref := 0, last_value := 0
                  , last_timestamp := 0, accumulated_score := 0 } } := by
  refine ⟨by rfl, ?_⟩
  exact (C5_frame (fun _ _ _ => true)
    { anchor := { initialized := false, authority_key := 0 }
    , entity := { initialized := false, entity_ref := 0, last_value := 0
                , last_timestamp := 0, accumulated_score := 0 } } []
    Core.CoreError.NotInitialized).2 (by rfl)

/-- C8: the fixed little-endian layouts measure 33 bytes (TrustAnchor =
`ConfigAccount`), 57 bytes (EntityState = `NftEvolutionAccount`) and 80
bytes (AttestationRecord = `OracleDataAccount`), matching the `LEN`
constants, and every Borsh encoding has exactly that length. -/
theorem C8_layout :
    AiNft.ConfigAccount.LEN = 33 ∧
    AiNft.NftEvolutionAccount.LEN = 57 ∧
    AiNft.OracleDataAccount.LEN = 80 ∧
    (∀ a : AiNft.ConfigAccount, (AiNft.configSerialize a).length = 33) ∧
    (∀ a : AiNft.NftEvolutionAccount, (AiNft.nftSerialize a).length = 57) ∧
    (∀ a : AiNft.OracleDataAccount, (AiNft.oracleSerialize a).length = 80) := by
  refine ⟨rfl, rfl, rfl, ?_, ?_, ?_⟩ <;> intro a <;>
    simp [AiNft.configSerialize, AiNft.nftSerialize, AiNft.oracleSerialize,
      le8, le8i, leBytes_length]

/-- C9: `pack_into_slice` of `ConfigAccount` and `NftEvolutionAccount`
panics (models as `none`) on every destination slice shorter than the
Borsh encoding, while `unpack_from_slice` is total, mapping every
undecodable byte slice to `InvalidAccountData`. -/
theorem C9_pack_partial :
    (∀ (a : AiNft.ConfigAccount) (dst : List Nat),
        dst.length < (AiNft.configSerialize a).length →
        AiNft.ConfigAccount.pack_into_slice a dst = none) ∧
    (∀ (a : AiNft.NftEvolutionAccount) (dst : List Nat),
        dst.length < (AiNft.nftSerialize a).length →
        AiNft.NftEvolutionAccount.pack_into_slice a dst = none) ∧
    (∀ src : List Nat,
        (∃ x, AiNft.ConfigAccount.unpack_from_slice src = .ok x) ∨
        AiNft.ConfigAccount.unpack_from_slice src =
          .error .InvalidAccountData) ∧
    (∀ src : List Nat,
        (∃ x, AiNft.NftEvolutionAccount.unpack_from_slice src = .ok x) ∨
        AiNft.NftEvolutionAccount.unpack_from_slice src =
          .error .InvalidAccountData) := by
  refine ⟨?_, ?_, ?_, ?_⟩
  · intro a dst h
    have hn : ¬ (AiNft.configSerialize a).length ≤ dst.length := by omega
    simp [AiNft.ConfigAccount.pack_into_slice, hn]
  · intro a dst h
    have hn : ¬ (AiNft.nftSerialize a).length ≤ dst.length := by omega
    simp [AiNft.NftEvolutionAccount.pack_into_slice, hn]
  · intro src
    unfold AiNft.ConfigAccount.unpack_from_slice
    cases AiNft.configDeserialize src <;> simp
  · intro src
    unfold AiNft.NftEvolutionAccount.unpack_from_slice
    cases AiNft.nftDeserialize src <;> simp

/-- C9 witness: packing into an empty slice panics; the empty slice also
fails to unpack, with `InvalidAccountData`. -/
theorem C9_pack_partial_witness :
    ([] : List Nat).length <
      (AiNft.configSerialize { is_initialized := false, oracle_pubkey := 0 }).length ∧
    AiNft.ConfigAccount.pack_into_slice
      { is_initialized := false, oracle_pubkey := 0 } [] = none :=
  ⟨by decide,
    C9_pack_partial.1 { is_initialized := false, oracle_pubkey := 0 } []
      (by decide)⟩

/-! ## Helper lemmas for the initialization claims -/

theorem loyalty_serialize_length (a : Loyalty.ConfigAccount) :
    (Loyalty.configSerialize a).length = Loyalty.ConfigAccount.LEN := by
  simp [Loyalty.configSerialize, Loyalty.ConfigAccount.LEN, leBytes_length]

theorem stable_serialize_length (a : Stable.ConfigAccount) :
    (Stable.configSerialize a).length = Stable.ConfigAccount.LEN := by
  simp [Stable.configSerialize, Stable.ConfigAccount.LEN, leBytes_length]

theorem loyalty_unpack_unchecked_length {src : List Nat}
    {cfg : Loyalty.ConfigAccount}
    (h : Loyalty.ConfigAccount.unpack_unchecked src = .ok cfg) :
    src.length = Loyalty.ConfigAccount.LEN := by
  unfold Loyalty.ConfigAccount.unpack_unchecked at h
  by_cases hl : src.length = Loyalty.ConfigAccount.LEN
  · exact hl
  · simp [hl] at h

theorem stable_unpack_unchecked_length {src : List Nat}
    {cfg : Stable.ConfigAccount}
    (h : Stable.ConfigAccount.unpack_unchecked src = .ok cfg) :
    src.length = Stable.ConfigAccount.LEN := by
  unfold Stable.ConfigAccount.unpack_unchecked at h
  by_cases hl : src.length = Stable.ConfigAccount.LEN
  · exact hl
  · simp [hl] at h

theorem loyalty_roundtrip {admin mint : Nat} (ha : admin < 256 ^ 32)
    (hm : mint < 256 ^ 32) :
    Loyalty.configDeserialize (Loyalty.configSerialize
      { is_initialized := true, admin := admin, loyalty_mint := mint }) =
    some { is_initialized := true, admin := admin, loyalty_mint := mint } := by
  have h1 : (leBytes 32 admin).length = 32 := leBytes_length _ _
  have h2 : (leBytes 32 mint).length = 32 := leBytes_length _ _
  have key : Loyalty.configSerialize
      { is_initialized := true, admin := admin, loyalty_mint := mint } =
      1 :: (leBytes 32 admin ++ leBytes 32 mint) := by
    simp [Loyalty.configSerialize]
  rw [key]
  simp only [Loyalty.configDeserialize]
  rw [List.take_left' h1, List.drop_left' h1,
    List.take_of_length_le (le_of_eq h2)]
  simp [List.length_append, h1, h2, leNat_leBytes_of_lt ha,
    leNat_leBytes_of_lt hm]

theorem stable_roundtrip {admin mint : Nat} (ha : admin < 256 ^ 32)
    (hm : mint < 256 ^ 32) :
    Stable.configDeserialize (Stable.configSerialize
      { is_initialized := true, admin := admin, mint_account := mint }) =
    some { is_initialized := true, admin := admin, mint_account := mint } := by
  have h1 : (leBytes 32 admin).length = 32 := leBytes_length _ _
  have h2 : (leBytes 32 mint).length = 32 := leBytes_length _ _
  have key : Stable.configSerialize
      { is_initialized := true, admin := admin, mint_account := mint } =
      1 :: (leBytes 32 admin ++ leBytes 32 mint) := by
    simp [Stable.configSerialize]
  rw [key]
  simp only [Stable.configDeserialize]
  rw [List.take_left' h1, List.drop_left' h1,
    List.take_of_length_le (le_of_eq h2)]
  simp [List.length_append, h1, h2, leNat_leBytes_of_lt ha,
    leNat_leBytes_of_lt hm]

/-- A successful unpack pins the buffer length, making the final `pack`
write the fresh encoding and nothing else. -/
theorem loyalty_pack_after_unpack {src : List Nat}
    {cfg : Loyalty.ConfigAccount}
    (h : Loyalty.ConfigAccount.unpack_unchecked src = .ok cfg)
    (a : Loyalty.ConfigAccount) :
    Loyalty.ConfigAccount.pack a src = .ok (Loyalty.configSerialize a) := by
  have hl := loyalty_unpack_unchecked_length h
  unfold Loyalty.ConfigAccount.pack
  rw [if_pos hl, loyalty_serialize_length, ← hl, List.drop_length,
    List.append_nil]

theorem stable_pack_after_unpack {src : List Nat}
    {cfg : Stable.ConfigAccount}
    (h : Stable.ConfigAccount.unpack_unchecked src = .ok cfg)
    (a : Stable.ConfigAccount) :
    Stable.ConfigAccount.pack a src = .ok (Stable.configSerialize a) := by
  have hl := stable_unpack_unchecked_length h
  unfold Stable.ConfigAccount.pack
  rw [if_pos hl, stable_serialize_length, ← hl, List.drop_length,
    List.append_nil]

/-- C6: a second initialization call on an already-initialized record fails
with `AlreadyInitialized` and leaves the record unchanged (spec-level
`InitializeTrustAnchor` / `InitializeEntity`, and the loyalty and
stablecoin `process_initialize`); on an uninitialized record the call
succeeds, setting the flag and storing the supplied key/identifier. -/
theorem C6_doubleInit (anchor : Core.TrustAnchor) (k : Nat)
    (entity : Core.EntityState) (ref ik owner admin mint : Nat)
    (config_data : List Nat) (cfg : Loyalty.ConfigAccount)
    (scfg : Stable.ConfigAccount) (ps : Bool) :
    (anchor.initialized = true →
      Core.initTrustAnchor anchor k = .error .AlreadyInitialized) ∧
    (anchor.initialized = false →
      Core.initTrustAnchor anchor k =
        .ok { initialized := true, authority_key := k }) ∧
    (entity.initialized = true →
      Core.initEntity entity ref = .error .AlreadyInitialized) ∧
    (entity.initialized = false →
      Core.initEntity entity ref =
        .ok { initialized := true, entity_ref := ref, last_value := 0
            , last_timestamp := 0, accumulated_score := 0 }) ∧
    (Loyalty.ConfigAccount.unpack_unchecked config_data = .ok cfg →
      cfg.is_initialized = true →
      Loyalty.runInit true ik owner owner true config_data admin mint =
        (config_data, some .AlreadyInitialized)) ∧
    (Loyalty.ConfigAccount.unpack_unchecked config_data = .ok cfg →
      cfg.is_initialized = false →
      Loyalty.processInit true ik owner owner true config_data admin mint =
        .ok (Loyalty.configSerialize
          { is_initialized := true, admin := admin, loyalty_mint := mint })) ∧
    (admin < 256 ^ 32 → mint < 256 ^ 32 →
      Loyalty.ConfigAccount.unpack_from_slice (Loyalty.configSerialize
          { is_initialized := true, admin := admin, loyalty_mint := mint }) =
        .ok { is_initialized := true, admin := admin
            , loyalty_mint := mint }) ∧
    (Stable.ConfigAccount.unpack_unchecked config_data = .ok scfg →
      scfg.is_initialized = true →
      Stable.processInit ps owner owner true config_data admin mint =
        .error .AlreadyInitialized) := by
  refine ⟨?_, ?_, ?_, ?_, ?_, ?_, ?_, ?_⟩
  · intro h; simp [Core.initTrustAnchor, h]
  · intro h; simp [Core.initTrustAnchor, h]
  · intro h; simp [Core.initEntity, h]
  · intro h; simp [Core.initEntity, h]
  · intro h hi
    unfold Loyalty.runInit Loyalty.processInit
    simp [h, hi]
  · intro h hi
    unfold Loyalty.processInit
    simp [h, hi, loyalty_pack_after_unpack h]
  · intro ha hm
    unfold Loyalty.ConfigAccount.unpack_from_slice
    rw [loyalty_roundtrip ha hm]
  · intro h hi
    unfold Stable.processInit
    simp [h, hi]

/-- C6 witness: re-initializing a loyalty config whose bytes already decode
as initialized fails with `AlreadyInitialized` and returns the bytes
untouched. -/
theorem C6_doubleInit_witness :
    Loyalty.ConfigAccount.unpack_unchecked (Loyalty.configSerialize
        { is_initialized := true, admin := 5, loyalty_mint := 6 }) =
      .ok { is_initialized := true, admin := 5, loyalty_mint := 6 } ∧
    Loyalty.runInit true 9 3 3 true
        (Loyalty.configSerialize
          { is_initialized := true, admin := 5, loyalty_mint := 6 }) 7 8 =
      (Loyalty.configSerialize
        { is_initialized := true, admin := 5, loyalty_mint := 6 },
       some .AlreadyInitialized) := by
  have h : Loyalty.ConfigAccount.unpack_unchecked (Loyalty.configSerialize
      { is_initialized := true, admin := 5, loyalty_mint := 6 }) =
      .ok { is_initialized := true, admin := 5, loyalty_mint := 6 } := by
    rfl
  exact ⟨h,
    (C6_doubleInit { initialized := true, authority_key := 0 } 0
      { initialized := true, entity_ref := 0, last_value := 0
      , last_timestamp := 0, accumulated_score := 0 } 0 9 3 7 8
      (Loyalty.configSerialize
        { is_initialized := true, admin := 5, loyalty_mint := 6 })
      { is_initialized := true, admin := 5, loyalty_mint := 6 }
      { is_initialized := false, admin := 0, mint_account := 0 }
      false).2.2.2.2.1 h rfl⟩

/-- C7: every error the three operations can return lies in the closed
five-kind taxonomy; the updates in fact only ever return `NotInitialized`,
`MalformedRecord`, `SignatureInvalid`, or `Stale`, and the two
initializations only `AlreadyInitialized`. -/
theorem C7_taxonomy :
    (∀ e : Core.CoreError,
      e = .AlreadyInitialized ∨ e = .NotInitialized ∨ e = .MalformedRecord ∨
      e = .SignatureInvalid ∨ e = .Stale) ∧
    (∀ (sv : Core.SigCheck) (anchor : Core.TrustAnchor)
        (entity : Core.EntityState) (bs : List Nat) (e : Core.CoreError),
      Core.updateEntity sv anchor entity bs = .error e →
      e = .NotInitialized ∨ e = .MalformedRecord ∨
      e = .SignatureInvalid ∨ e = .Stale) ∧
    (∀ (anchor : Core.TrustAnchor) (k : Nat) (e : Core.CoreError),
      Core.initTrustAnchor anchor k = .error e → e = .AlreadyInitialized) ∧
    (∀ (entity : Core.EntityState) (ref : Nat) (e : Core.CoreError),
      Core.initEntity entity ref = .error e → e = .AlreadyInitialized) := by
  refine ⟨?_, ?_, ?_, ?_⟩
  · intro e; cases e <;> simp
  · intro sv anchor entity bs e h
    unfold Core.updateEntity Core.verifyRecord Core.checkFreshness at h
    cases ha : anchor.initialized <;> rw [ha] at h <;> simp at h
    · tauto
    cases he : entity.initialized <;> rw [he] at h <;> simp at h
    · tauto
    cases hd : Core.decodeAttestation bs <;> rw [hd] at h <;> simp at h
    · tauto
    rename_i r
    cases hs : sv (Core.signedMessage r) r.signature anchor.authority_key <;>
      rw [hs] at h <;> simp at h
    · tauto
    by_cases hts : r.timestamp ≤ entity.last_timestamp <;> simp [hts] at h
    tauto
  · intro anchor k e h
    unfold Core.initTrustAnchor at h
    by_cases hi : anchor.initialized <;> simp [hi] at h
    exact h.symm
  · intro entity ref e h
    unfold Core.initEntity at h
    by_cases hi : entity.initialized <;> simp [hi] at h
    exact h.symm

/-- C7 witness: an undecodable (empty) record makes `UpdateEntity` fail,
and the error kind lies in the taxonomy. -/
theorem C7_taxonomy_witness :
    Core.updateEntity (fun _ _ _ => true)
        { initialized := true, authority_key := 0 }
        { initialized := true, entity_ref := 0, last_value := 0
        , last_timestamp := 0, accumulated_score := 0 } [] =
      .error .MalformedRecord ∧
    (Core.CoreError.MalformedRecord = .NotInitialized ∨
     Core.CoreError.MalformedRecord = .MalformedRecord ∨
     Core.CoreError.MalformedRecord = .SignatureInvalid ∨
     Core.CoreError.MalformedRecord = .Stale) := by
  have h : Core.updateEntity (fun _ _ _ => true)
      { initialized := true, authority_key := 0 }
      { initialized := true, entity_ref := 0, last_value := 0
      , last_timestamp := 0, accumulated_score := 0 } [] =
      .error .MalformedRecord := by rfl
  exact ⟨h, C7_taxonomy.2.1 _ _ _ _ _ h⟩

/-- C10: initialization is first-come-first-served — the stablecoin
`process_initialize` result does not depend on whether the payer signed,
the loyalty one accepts any signer, and on a program-owned, rent-exempt,
uninitialized config both store exactly the admin key the caller
supplies. -/
theorem C10_initOpen (s1 s2 ps : Bool) (k1 k2 ik owner pid : Nat)
    (rent : Bool) (data : List Nat) (admin mint : Nat)
    (scfg : Stable.ConfigAccount) (lcfg : Loyalty.ConfigAccount) :
    (Stable.processInit s1 owner pid rent data admin mint =
      Stable.processInit s2 owner pid rent data admin mint) ∧
    (Stable.ConfigAccount.unpack_unchecked data = .ok scfg →
      scfg.is_initialized = false →
      Stable.processInit ps owner owner true data admin mint =
        .ok (Stable.configSerialize
          { is_initialized := true, admin := admin, mint_account := mint })) ∧
    (Loyalty.processInit true k1 owner pid rent data admin mint =
      Loyalty.processInit true k2 owner pid rent data admin mint) ∧
    (Loyalty.ConfigAccount.unpack_unchecked data = .ok lcfg →
      lcfg.is_initialized = false →
      Loyalty.processInit true ik owner owner true data admin mint =
        .ok (Loyalty.configSerialize
          { is_initialized := true, admin := admin, loyalty_mint := mint })) ∧
    (admin < 256 ^ 32 → mint < 256 ^ 32 →
      Stable.ConfigAccount.unpack_from_slice (Stable.configSerialize
          { is_initialized := true, admin := admin, mint_account := mint }) =
        .ok { is_initialized := true, admin := admin
            , mint_account := mint }) := by
  refine ⟨rfl, ?_, rfl, ?_, ?_⟩
  · intro h hi
    unfold Stable.processInit
    simp [h, hi, stable_pack_after_unpack h]
  · intro h hi
    unfold Loyalty.processInit
    simp [h, hi, loyalty_pack_after_unpack h]
  · intro ha hm
    unfold Stable.ConfigAccount.unpack_from_slice
    rw [stable_roundtrip ha hm]

/-- C10 witness: with no signature at all (`payer_is_signer = false`) the
stablecoin initialization on a fresh config succeeds and stores the
caller-supplied admin key `7`. -/
theorem C10_initOpen_witness :
    Stable.ConfigAccount.unpack_unchecked (Stable.configSerialize
        { is_initialized := false, admin := 0, mint_account := 0 }) =
      .ok { is_initialized := false, admin := 0, mint_account := 0 } ∧
    Stable.processInit false 3 3 true
        (Stable.configSerialize
          { is_initialized := false, admin := 0, mint_account := 0 }) 7 8 =
      .ok (Stable.configSerialize
        { is_initialized := true, admin := 7, mint_account := 8 }) := by
  have h : Stable.ConfigAccount.unpack_unchecked (Stable.configSerialize
      { is_initialized := false, admin := 0, mint_account := 0 }) =
      .ok { is_initialized := false, admin := 0, mint_account := 0 } := by
    rfl
  exact ⟨h,
    (C10_initOpen false false false 0 0 0 3 3 true
      (Stable.configSerialize
        { is_initialized := false, admin := 0, mint_account := 0 }) 7 8
      { is_initialized := false, admin := 0, mint_account := 0 }
      { is_initialized := false, admin := 0, loyalty_mint := 0 }).2.1 h rfl⟩
